import Mathlib

/-!
Verification development for a small FastAPI backend (`src/main.py`).

The repository exposes six HTTP handlers; the only computed one is the
credit-risk scorer `predict_risk`. Python floats are modelled as real
numbers; Python ints as integers; Python dicts (which preserve insertion
order) as association lists; exceptions as explicit sum types.
-/

namespace Backend

/-- The validated input of `POST /api/ml/predict` (pydantic model
`RiskFeatures`, src/main.py lines 184-189). Numeric payload only; the
field constraints are stated separately in `RiskFeatures.Valid`. -/
structure RiskFeatures where
  income : ℝ
  debt : ℝ
  num_credit_lines : ℤ
  missed_payments : ℤ
  age : ℤ

/-- The constraints declared on the pydantic fields: `ge=0` on income,
debt, num_credit_lines and missed_payments, `ge=18, le=100` on age. -/
def RiskFeatures.Valid (f : RiskFeatures) : Prop :=
  0 ≤ f.income ∧ 0 ≤ f.debt ∧ 0 ≤ f.num_credit_lines ∧
    0 ≤ f.missed_payments ∧ 18 ≤ f.age ∧ f.age ≤ 100

/-- Debt-to-income feature (src/main.py line 199):
`(features.debt / (features.income + 1e-6)) if features.income > 0 else 10.0`. -/
noncomputable def dti (f : RiskFeatures) : ℝ :=
  if 0 < f.income then f.debt / (f.income + 1e-6) else 10.0

/-- src/main.py line 200: `min(features.missed_payments * 0.25, 3.0)`. -/
noncomputable def payment_penalty (f : RiskFeatures) : ℝ :=
  min ((f.missed_payments : ℝ) * 0.25) 3.0

/-- src/main.py line 201: `min(features.num_credit_lines * 0.05, 1.5)`. -/
noncomputable def credit_util_penalty (f : RiskFeatures) : ℝ :=
  min ((f.num_credit_lines : ℝ) * 0.05) 1.5

/-- src/main.py line 202: `-0.01 * (features.age - 30)`. -/
noncomputable def age_bonus (f : RiskFeatures) : ℝ :=
  -0.01 * ((f.age : ℝ) - 30)

/-- src/main.py line 205:
`1.5 * dti + payment_penalty + credit_util_penalty + age_bonus`. -/
noncomputable def linear_score (f : RiskFeatures) : ℝ :=
  1.5 * dti f + payment_penalty f + credit_util_penalty f + age_bonus f

/-- src/main.py line 208: `1 / (1 + (2.718281828)**(-linear_score))`.
Note the base is the literal `2.718281828`, not `math.exp`. -/
noncomputable def risk_prob (f : RiskFeatures) : ℝ :=
  1 / (1 + (2.718281828 : ℝ) ^ (-(linear_score f)))

/-- The category chain of src/main.py lines 211-216. -/
noncomputable def categorize (p : ℝ) : String :=
  if p < 0.33 then "low" else if p < 0.66 then "medium" else "high"

/-- Round-half-to-even to the nearest integer, the tie-breaking rule of
Python 3 `round` on the exactly-representable ties; away from ties it is
the usual nearest-integer rounding. -/
noncomputable def roundEven (x : ℝ) : ℤ :=
  if Int.fract x = 1 / 2 then 2 * round (x / 2) else round x

/-- Python `round(x, 4)`: round to 4 decimal places, ties to even. -/
noncomputable def round4 (x : ℝ) : ℝ :=
  (roundEven (x * 10000) : ℝ) / 10000

/-- The echoed `features` sub-dict of the predict response
(src/main.py lines 221-226). -/
structure FeaturesEcho where
  dti : ℝ
  age : ℤ
  num_credit_lines : ℤ
  missed_payments : ℤ

/-- The response dict of `POST /api/ml/predict` (src/main.py lines 218-227). -/
structure RiskScoreResult where
  risk_probability : ℝ
  category : String
  features : FeaturesEcho

/-- The handler `predict_risk` (src/main.py lines 193-227): feature
engineering, linear score, sigmoid with the literal base, category from
the unrounded probability, rounding of the reported values. -/
noncomputable def predict_risk (f : RiskFeatures) : RiskScoreResult :=
  { risk_probability := round4 (risk_prob f)
    category := categorize (risk_prob f)
    features :=
      { dti := round4 (dti f)
        age := f.age
        num_credit_lines := f.num_credit_lines
        missed_payments := f.missed_payments } }

/-- The result of the handler `echo` (src/main.py lines 172-181). The
payload dict is modelled as an ordered association list (Python dicts
keep insertion order); `V` is the type of JSON values. -/
structure EchoResult (V : Type) where
  received : List (String × V)
  meta_length : ℕ
  meta_keys : List String
  meta_note : String

/-- The handler `echo` (src/main.py lines 172-181): returns the payload
unchanged together with `len(payload)`, `list(payload.keys())` and a
fixed note string. -/
def echo {V : Type} (payload : List (String × V)) : EchoResult V :=
  { received := payload
    meta_length := payload.length
    meta_keys := payload.map Prod.fst
    meta_note := "Echo service is useful for testing JSON integrations." }

/-- A raw (not yet validated) predict request body: the same numeric
fields as `RiskFeatures`, before the pydantic field constraints are
checked. -/
structure RawFeatures where
  income : ℝ
  debt : ℝ
  num_credit_lines : ℤ
  missed_payments : ℤ
  age : ℤ

/-- The names of the fields of a raw request body that violate the
constraints declared on `RiskFeatures` (src/main.py lines 185-189):
`ge=0` for income, debt, num_credit_lines, missed_payments and
`ge=18, le=100` for age. Pydantic reports every violated field. -/
noncomputable def fieldViolations (r : RawFeatures) : List String :=
  (if r.income < 0 then ["income"] else []) ++
  (if r.debt < 0 then ["debt"] else []) ++
  (if r.num_credit_lines < 0 then ["num_credit_lines"] else []) ++
  (if r.missed_payments < 0 then ["missed_payments"] else []) ++
  (if r.age < 18 ∨ 100 < r.age then ["age"] else [])

/-- The `POST /api/ml/predict` boundary: pydantic validates the body
against `RiskFeatures` and rejects with a client error listing the
violated fields before the handler body runs; otherwise the handler
`predict_risk` is applied. -/
noncomputable def predictEndpoint (r : RawFeatures) :
    Except (List String) RiskScoreResult :=
  if fieldViolations r = [] then
    .ok (predict_risk
      ⟨r.income, r.debt, r.num_credit_lines, r.missed_payments, r.age⟩)
  else
    .error (fieldViolations r)

/-- Modelled from the spec: the optional `database` module is not part of
src/ (only `main.py` is present); its handle `db` is "an optional
external data-store handle". A present handle may or may not expose a
`name` attribute, and listing its collections either returns a list of
names or raises an exception carrying a message. -/
structure DbHandle where
  name : Option String
  list_collection_names : Except (List Char) (List String)

/-- Modelled from the spec: the possible outcomes of
`from database import db` in the `/test` handler — the import raises
`ImportError` (module absent), the import raises some other exception
with a message, or it yields `db`, which may be `None`. -/
inductive DbImport
  | importError : DbImport
  | otherError : List Char → DbImport
  | ok : Option DbHandle → DbImport

/-- The fields of the `/test` response dict while the probe is running
(src/main.py lines 34-41): `database_url` and `database_name` start as
`None` and may be assigned strings during the probe. -/
structure TestResponseMid where
  backend : String
  database : String
  database_url : Option String
  database_name : Option String
  connection_status : String
  collections : List String

/-- The final `/test` response dict (after lines 70-71 every field is a
string). -/
structure TestResponse where
  backend : String
  database : String
  database_url : String
  database_name : String
  connection_status : String
  collections : List String

/-- The try/except probe of `test_database` (src/main.py lines 34-66):
starts from the initial response dict and updates it according to the
outcome of the import, the `db is not None` check, the `hasattr(db,
'name')` check and the inner `list_collection_names` try/except. Raised
messages are truncated with `[:50]`, the collection listing with
`[:10]`. -/
def test_database_probe (env : DbImport) : TestResponseMid :=
  let init : TestResponseMid :=
    { backend := "✅ Running"
      database := "❌ Not Available"
      database_url := none
      database_name := none
      connection_status := "Not Connected"
      collections := [] }
  match env with
  | .importError =>
      { init with
        database := "❌ Database module not found (run enable-database first)" }
  | .otherError msg =>
      { init with database := "❌ Error: " ++ (msg.take 50).asString }
  | .ok none =>
      { init with database := "⚠️  Available but not initialized" }
  | .ok (some db) =>
      let base : TestResponseMid :=
        { init with
          database := "✅ Available"
          database_url := some "✅ Configured"
          database_name := some (db.name.getD "✅ Connected")
          connection_status := "Connected" }
      match db.list_collection_names with
      | .ok cols =>
          { base with
            collections := cols.take 10
            database := "✅ Connected & Working" }
      | .error e =>
          { base with
            database := "⚠️  Connected but Error: " ++ (e.take 50).asString }

/-- The handler `test_database` (src/main.py lines 31-73): runs the
probe, then unconditionally overwrites `database_url` and
`database_name` from the presence of the `DATABASE_URL` and
`DATABASE_NAME` environment variables (lines 70-71) and returns the
dict. `url_set` and `name_set` say whether each variable is set. -/
def test_database (env : DbImport) (url_set name_set : Bool) :
    TestResponse :=
  let mid := test_database_probe env
  { backend := mid.backend
    database := mid.database
    database_url := if url_set then "✅ Set" else "❌ Not Set"
    database_name := if name_set then "✅ Set" else "❌ Not Set"
    connection_status := mid.connection_status
    collections := mid.collections }

/-- A sample valid request body, used to instantiate the theorems below
(the worked example of the spec: income 5000, debt 15000, 3 credit
lines, 2 missed payments, age 30). -/
def sampleFeatures : RiskFeatures :=
  { income := 5000, debt := 15000, num_credit_lines := 3
    missed_payments := 2, age := 30 }

lemma sampleFeatures_valid : sampleFeatures.Valid := by
  unfold sampleFeatures RiskFeatures.Valid
  norm_num

/-- C2: for a valid input with positive income, `dti` is
`debt / (income + 1e-6)`; with zero income, `dti` is exactly `10.0`
whatever the debt is. -/
theorem dti_cases (f : RiskFeatures) (hf : f.Valid) :
    (0 < f.income → dti f = f.debt / (f.income + 1e-6)) ∧
    (f.income = 0 → dti f = 10.0) := by
  constructor
  · intro h
    simp [dti, h]
  · intro h
    simp [dti, h]

/-- C2 witness: the split at the sample input. -/
theorem dti_cases_witness :
    sampleFeatures.Valid ∧
    ((0 < sampleFeatures.income →
        dti sampleFeatures =
          sampleFeatures.debt / (sampleFeatures.income + 1e-6)) ∧
      (sampleFeatures.income = 0 → dti sampleFeatures = 10.0)) :=
  ⟨sampleFeatures_valid, dti_cases sampleFeatures sampleFeatures_valid⟩

/-- C4: both penalties are the capped linear expressions of the source,
and the caps are attained exactly at 100 missed payments and 1000 credit
lines. -/
theorem penalty_caps (f : RiskFeatures) (hf : f.Valid) :
    payment_penalty f = min ((f.missed_payments : ℝ) * 0.25) 3.0 ∧
    credit_util_penalty f = min ((f.num_credit_lines : ℝ) * 0.05) 1.5 ∧
    (f.missed_payments = 100 → payment_penalty f = 3.0) ∧
    (f.num_credit_lines = 1000 → credit_util_penalty f = 1.5) := by
  refine ⟨rfl, rfl, ?_, ?_⟩
  · intro h
    rw [payment_penalty, h]
    norm_num
  · intro h
    rw [credit_util_penalty, h]
    norm_num

/-- C4 witness: the capped input (1000 credit lines, 100 missed
payments, age 50). -/
theorem penalty_caps_witness :
    (RiskFeatures.mk 0 0 1000 100 50).Valid ∧
    (payment_penalty ⟨0, 0, 1000, 100, 50⟩ =
        min (((RiskFeatures.mk 0 0 1000 100 50).missed_payments : ℝ) * 0.25) 3.0 ∧
      credit_util_penalty ⟨0, 0, 1000, 100, 50⟩ =
        min (((RiskFeatures.mk 0 0 1000 100 50).num_credit_lines : ℝ) * 0.05) 1.5 ∧
      ((RiskFeatures.mk 0 0 1000 100 50).missed_payments = 100 →
        payment_penalty ⟨0, 0, 1000, 100, 50⟩ = 3.0) ∧
      ((RiskFeatures.mk 0 0 1000 100 50).num_credit_lines = 1000 →
        credit_util_penalty ⟨0, 0, 1000, 100, 50⟩ = 1.5)) :=
  ⟨by norm_num [RiskFeatures.Valid],
    penalty_caps ⟨0, 0, 1000, 100, 50⟩ (by norm_num [RiskFeatures.Valid])⟩

/-- C6: the scorer is a pure function — two invocations on equal inputs
return equal full results (probability, category and echoed features). -/
theorem predict_risk_deterministic (f g : RiskFeatures) (h : f = g) :
    predict_risk f = predict_risk g := by
  rw [h]

/-- C6 witness: two invocations at the sample input agree. -/
theorem predict_risk_deterministic_witness :
    sampleFeatures = sampleFeatures ∧
    predict_risk sampleFeatures = predict_risk sampleFeatures :=
  ⟨rfl, predict_risk_deterministic sampleFeatures sampleFeatures rfl⟩

/-- C7: the echo result returns the payload unchanged, its key count,
its keys in order, and a fixed note; no value is transformed. -/
theorem echo_unchanged {V : Type} (payload : List (String × V)) :
    (echo payload).received = payload ∧
    (echo payload).meta_length = (payload.map Prod.fst).length ∧
    (echo payload).meta_keys = payload.map Prod.fst ∧
    (echo payload).meta_note =
      "Echo service is useful for testing JSON integrations." :=
  ⟨rfl, (List.length_map payload Prod.fst).symm, rfl, rfl⟩

/-- C10: whatever the probe saw, the returned `database_url` and
`database_name` fields are exactly the env-presence markers, so they
carry no information about the probed database (its handle name
included). -/
theorem test_database_env_fields_only (env₁ env₂ : DbImport)
    (u n : Bool) :
    (test_database env₁ u n).database_url =
      (if u then "✅ Set" else "❌ Not Set") ∧
    (test_database env₁ u n).database_name =
      (if n then "✅ Set" else "❌ Not Set") ∧
    (test_database env₁ u n).database_url =
      (test_database env₂ u n).database_url ∧
    (test_database env₁ u n).database_name =
      (test_database env₂ u n).database_name :=
  ⟨rfl, rfl, rfl, rfl⟩

/-- C3: the category of the result is determined by the unrounded
probability through the half-open thresholds 0.33 and 0.66; exactly
0.33 falls in "medium" and exactly 0.66 in "high". -/
theorem category_thresholds (f : RiskFeatures) (hf : f.Valid) :
    ((predict_risk f).category = "low" ↔ risk_prob f < 0.33) ∧
    ((predict_risk f).category = "medium" ↔
      0.33 ≤ risk_prob f ∧ risk_prob f < 0.66) ∧
    ((predict_risk f).category = "high" ↔ 0.66 ≤ risk_prob f) := by
  have hcat : (predict_risk f).category = categorize (risk_prob f) := rfl
  rw [hcat]
  unfold categorize
  split_ifs with h1 h2
  · exact ⟨iff_of_true rfl h1,
      iff_of_false (by decide) (fun hc => absurd h1 (not_lt.mpr hc.1)),
      iff_of_false (by decide) (fun hc => absurd h1 (not_lt.mpr (by linarith)))⟩
  · exact ⟨iff_of_false (by decide) h1,
      iff_of_true rfl ⟨not_lt.mp h1, h2⟩,
      iff_of_false (by decide) (fun hc => absurd h2 (not_lt.mpr hc))⟩
  · exact ⟨iff_of_false (by decide) (fun hc => absurd hc (by intro hc'; exact h2 (by linarith))),
      iff_of_false (by decide) (fun hc => absurd hc.2 h2),
      iff_of_true rfl (not_lt.mp h2)⟩

/-- C3 witness: the threshold split at the sample input. -/
theorem category_thresholds_witness :
    sampleFeatures.Valid ∧
    (((predict_risk sampleFeatures).category = "low" ↔
        risk_prob sampleFeatures < 0.33) ∧
      ((predict_risk sampleFeatures).category = "medium" ↔
        0.33 ≤ risk_prob sampleFeatures ∧ risk_prob sampleFeatures < 0.66) ∧
      ((predict_risk sampleFeatures).category = "high" ↔
        0.66 ≤ risk_prob sampleFeatures)) :=
  ⟨sampleFeatures_valid, category_thresholds sampleFeatures sampleFeatures_valid⟩

/-- C8: if any declared field constraint is violated, the predict
endpoint returns the client error carrying the non-empty list of
violated field names, each violated field is listed, and the handler
body is never reached. -/
theorem predict_rejects_invalid (r : RawFeatures)
    (h : r.income < 0 ∨ r.debt < 0 ∨ r.num_credit_lines < 0 ∨
      r.missed_payments < 0 ∨ r.age < 18 ∨ 100 < r.age) :
    predictEndpoint r = .error (fieldViolations r) ∧
    fieldViolations r ≠ [] ∧
    (r.income < 0 → "income" ∈ fieldViolations r) ∧
    (r.debt < 0 → "debt" ∈ fieldViolations r) ∧
    (r.num_credit_lines < 0 → "num_credit_lines" ∈ fieldViolations r) ∧
    (r.missed_payments < 0 → "missed_payments" ∈ fieldViolations r) ∧
    (r.age < 18 ∨ 100 < r.age → "age" ∈ fieldViolations r) := by
  have hne : fieldViolations r ≠ [] := by
    unfold fieldViolations
    split_ifs <;> simp_all
  refine ⟨?_, hne, ?_, ?_, ?_, ?_, ?_⟩
  · unfold predictEndpoint
    rw [if_neg hne]
  · intro hi
    unfold fieldViolations
    simp [hi]
  · intro hi
    unfold fieldViolations
    simp [hi]
  · intro hi
    unfold fieldViolations
    simp [hi]
  · intro hi
    unfold fieldViolations
    simp [hi]
  · intro hi
    unfold fieldViolations
    simp [hi]

/-- C8 witness: the request with age 17 (all other fields in range) is
rejected and `age` is among the reported fields. -/
theorem predict_rejects_invalid_witness :
    ((RawFeatures.mk 0 0 0 0 17).income < 0 ∨
      (RawFeatures.mk 0 0 0 0 17).debt < 0 ∨
      (RawFeatures.mk 0 0 0 0 17).num_credit_lines < 0 ∨
      (RawFeatures.mk 0 0 0 0 17).missed_payments < 0 ∨
      (RawFeatures.mk 0 0 0 0 17).age < 18 ∨
      100 < (RawFeatures.mk 0 0 0 0 17).age) ∧
    (predictEndpoint ⟨0, 0, 0, 0, 17⟩ =
        .error (fieldViolations ⟨0, 0, 0, 0, 17⟩) ∧
      fieldViolations ⟨0, 0, 0, 0, 17⟩ ≠ [] ∧
      ((RawFeatures.mk 0 0 0 0 17).income < 0 →
        "income" ∈ fieldViolations ⟨0, 0, 0, 0, 17⟩) ∧
      ((RawFeatures.mk 0 0 0 0 17).debt < 0 →
        "debt" ∈ fieldViolations ⟨0, 0, 0, 0, 17⟩) ∧
      ((RawFeatures.mk 0 0 0 0 17).num_credit_lines < 0 →
        "num_credit_lines" ∈ fieldViolations ⟨0, 0, 0, 0, 17⟩) ∧
      ((RawFeatures.mk 0 0 0 0 17).missed_payments < 0 →
        "missed_payments" ∈ fieldViolations ⟨0, 0, 0, 0, 17⟩) ∧
      ((RawFeatures.mk 0 0 0 0 17).age < 18 ∨
          100 < (RawFeatures.mk 0 0 0 0 17).age →
        "age" ∈ fieldViolations ⟨0, 0, 0, 0, 17⟩)) :=
  ⟨by norm_num, predict_rejects_invalid ⟨0, 0, 0, 0, 17⟩ (by norm_num)⟩

/-- C9: the `/test` handler is a total function of the probe outcome —
every outcome yields a response dict; the collections listing never
exceeds 10 names; and every raised message is reported in the
`database` field truncated to its first 50 characters. -/
theorem test_database_reports_failures (env : DbImport)
    (u n : Bool) :
    (test_database env u n).backend = "✅ Running" ∧
    (test_database env u n).collections.length ≤ 10 ∧
    (∀ msg, env = .otherError msg →
      (test_database env u n).database =
          "❌ Error: " ++ (msg.take 50).asString ∧
        (msg.take 50).length ≤ 50) ∧
    (∀ db e, env = .ok (some db) →
      db.list_collection_names = .error e →
      (test_database env u n).database =
          "⚠️  Connected but Error: " ++ (e.take 50).asString ∧
        (e.take 50).length ≤ 50) := by
  rcases env with _ | msg | mdb
  · refine ⟨rfl, by simp [test_database, test_database_probe], ?_, ?_⟩
    · intro msg h
      simp at h
    · intro db e h
      simp at h
  · refine ⟨rfl, by simp [test_database, test_database_probe], ?_, ?_⟩
    · intro msg' h
      have hm : msg = msg' := by injection h
      subst hm
      refine ⟨rfl, ?_⟩
      simp [List.length_take]
    · intro db e h
      simp at h
  · rcases mdb with _ | db
    · refine ⟨rfl, by simp [test_database, test_database_probe], ?_, ?_⟩
      · intro msg h
        simp at h
      · intro db e h
        simp at h
    · rcases hlc : db.list_collection_names with e | cols
      · refine ⟨by simp [test_database, test_database_probe, hlc], ?_, ?_, ?_⟩
        · simp [test_database, test_database_probe, hlc]
        · intro msg h
          simp at h
        · intro db' e' h h'
          have hdb : db = db' := by
            injection h with h2
            injection h2
          subst hdb
          rw [hlc] at h'
          have he : e = e' := by injection h'
          subst he
          refine ⟨?_, by simp [List.length_take]⟩
          simp [test_database, test_database_probe, hlc]
      · refine ⟨by simp [test_database, test_database_probe, hlc], ?_, ?_, ?_⟩
        · simp [test_database, test_database_probe, hlc, List.length_take]
        · intro msg h
          simp at h
        · intro db' e' h h'
          have hdb : db = db' := by
            injection h with h2
            injection h2
          subst hdb
          rw [hlc] at h'
          simp at h'

/-- A concrete erroring database handle: it has a name, and listing its
collections raises a 60-character message. -/
def erroringHandle : DbHandle :=
  { name := some "portfolio"
    list_collection_names :=
      .error "connection reset by peer while fetching collection list".toList }

/-- C9 witness: with the erroring handle present, the response is built,
its collections stay capped, and the reported message is the 50-character
truncation. -/
theorem test_database_reports_failures_witness :
    (test_database (.ok (some erroringHandle)) true false).backend =
        "✅ Running" ∧
    (test_database (.ok (some erroringHandle)) true false).collections.length ≤ 10 ∧
    ((test_database (.ok (some erroringHandle)) true false).database =
        "⚠️  Connected but Error: " ++
          (("connection reset by peer while fetching collection list".toList).take 50).asString ∧
      ((("connection reset by peer while fetching collection list".toList).take 50)).length ≤ 50) :=
  ⟨(test_database_reports_failures (.ok (some erroringHandle)) true false).1,
    (test_database_reports_failures (.ok (some erroringHandle)) true false).2.1,
    (test_database_reports_failures (.ok (some erroringHandle)) true false).2.2.2
      erroringHandle
      "connection reset by peer while fetching collection list".toList
      rfl rfl⟩

lemma round_quarter : round ((1 : ℝ) / 4) = 0 := by
  rw [round_eq]
  norm_num

lemma round_three_quarters : round ((3 : ℝ) / 4) = 1 := by
  rw [round_eq]
  norm_num

/-- Round-half-to-even lands within half a unit of its argument. -/
lemma abs_roundEven_sub (x : ℝ) : |(roundEven x : ℝ) - x| ≤ 1 / 2 := by
  unfold roundEven
  split_ifs with h
  · have hx : x = (⌊x⌋ : ℝ) + 1 / 2 := by
      have hfr : Int.fract x = x - ⌊x⌋ := Int.self_sub_floor x |>.symm
      rw [hfr] at h
      linarith
    rcases Int.even_or_odd ⌊x⌋ with ⟨m, hm⟩ | ⟨m, hm⟩
    · have h2 : x / 2 = 1 / 4 + (m : ℝ) := by
        rw [hx, hm]
        push_cast
        ring
      have hr : round (x / 2) = m := by
        rw [h2, round_add_int, round_quarter, zero_add]
      rw [hr, hx, hm]
      rw [abs_le]
      constructor <;> push_cast <;> linarith
    · have h2 : x / 2 = 3 / 4 + (m : ℝ) := by
        rw [hx, hm]
        push_cast
        ring
      have hr : round (x / 2) = 1 + m := by
        rw [h2, round_add_int, round_three_quarters]
      rw [hr, hx, hm]
      rw [abs_le]
      constructor <;> push_cast <;> linarith
  · have hb := abs_sub_round x
    rwa [abs_sub_comm] at hb

lemma roundEven_nonneg {x : ℝ} (hx : 0 ≤ x) : 0 ≤ roundEven x := by
  by_contra hneg
  push_neg at hneg
  have h1 : roundEven x ≤ -1 := by omega
  have h2 : (roundEven x : ℝ) ≤ -1 := by exact_mod_cast h1
  have hb := abs_le.mp (abs_roundEven_sub x)
  linarith [hb.1]

lemma roundEven_le_of_le {x : ℝ} {b : ℤ} (hx : x ≤ (b : ℝ)) :
    roundEven x ≤ b := by
  by_contra hgt
  push_neg at hgt
  have h1 : b + 1 ≤ roundEven x := by omega
  have h2 : (b : ℝ) + 1 ≤ (roundEven x : ℝ) := by exact_mod_cast h1
  have hb := abs_le.mp (abs_roundEven_sub x)
  linarith [hb.2]

lemma risk_prob_pos (f : RiskFeatures) : 0 < risk_prob f := by
  unfold risk_prob
  have hpos : 0 < (2.718281828 : ℝ) ^ (-(linear_score f)) :=
    Real.rpow_pos_of_pos (by norm_num) _
  positivity

lemma risk_prob_lt_one (f : RiskFeatures) : risk_prob f < 1 := by
  unfold risk_prob
  have hpos : 0 < (2.718281828 : ℝ) ^ (-(linear_score f)) :=
    Real.rpow_pos_of_pos (by norm_num) _
  rw [div_lt_one (by linarith)]
  linarith

/-- C5: the returned (rounded) risk probability always lies in [0, 1]. -/
theorem risk_probability_in_unit (f : RiskFeatures) (hf : f.Valid) :
    0 ≤ (predict_risk f).risk_probability ∧
    (predict_risk f).risk_probability ≤ 1 := by
  have hres : (predict_risk f).risk_probability = round4 (risk_prob f) := rfl
  have h0 := risk_prob_pos f
  have h1 := risk_prob_lt_one f
  have hlo : 0 ≤ roundEven (risk_prob f * 10000) :=
    roundEven_nonneg (by nlinarith)
  have hhi : roundEven (risk_prob f * 10000) ≤ (10000 : ℤ) :=
    roundEven_le_of_le (by push_cast; nlinarith)
  rw [hres]
  unfold round4
  constructor
  · apply div_nonneg _ (by norm_num)
    exact_mod_cast hlo
  · rw [div_le_one (by norm_num)]
    exact_mod_cast hhi

/-- C5 witness: the range invariant at the sample input. -/
theorem risk_probability_in_unit_witness :
    sampleFeatures.Valid ∧
    (0 ≤ (predict_risk sampleFeatures).risk_probability ∧
      (predict_risk sampleFeatures).risk_probability ≤ 1) :=
  ⟨sampleFeatures_valid,
    risk_probability_in_unit sampleFeatures sampleFeatures_valid⟩

/-- A valid request with zero income: the sentinel branch gives
`dti = 10`, all penalties vanish and the linear score is exactly 15. -/
def zeroIncomeFeatures : RiskFeatures :=
  { income := 0, debt := 0, num_credit_lines := 0
    missed_payments := 0, age := 30 }

lemma linear_score_zeroIncome : linear_score zeroIncomeFeatures = 15 := by
  unfold linear_score dti payment_penalty credit_util_penalty age_bonus
    zeroIncomeFeatures
  norm_num

/-- C1 counterexample: at the zero-income input the code's probability
`1 / (1 + 2.718281828^(-15))` differs from the sigmoid built on the true
exponential base, because `2.718281828 < e`. -/
theorem risk_prob_ne_exp_sigmoid :
    risk_prob zeroIncomeFeatures ≠
      1 / (1 + Real.exp (-(linear_score zeroIncomeFeatures))) := by
  have hls := linear_score_zeroIncome
  unfold risk_prob
  rw [hls]
  have ha : (2.718281828 : ℝ) ^ (-(15 : ℝ)) =
      ((2.718281828 : ℝ) ^ (15 : ℕ))⁻¹ := by
    rw [show ((15 : ℝ)) = ((15 : ℕ) : ℝ) by norm_num]
    rw [Real.rpow_neg (by norm_num), Real.rpow_natCast]
  have he : Real.exp (-(15 : ℝ)) = (Real.exp 1 ^ (15 : ℕ))⁻¹ := by
    rw [Real.exp_neg, ← Real.exp_nat_mul]
    norm_num
  have hbase : (2.718281828 : ℝ) < Real.exp 1 :=
    lt_trans (by norm_num) Real.exp_one_gt_d9
  have hpow : (2.718281828 : ℝ) ^ (15 : ℕ) < Real.exp 1 ^ (15 : ℕ) :=
    pow_lt_pow_left₀ hbase (by norm_num) (by norm_num)
  have hinv : (Real.exp 1 ^ (15 : ℕ))⁻¹ <
      ((2.718281828 : ℝ) ^ (15 : ℕ))⁻¹ :=
    inv_strictAnti₀ (pow_pos (by norm_num) _) hpow
  apply ne_of_lt
  rw [ha, he]
  apply one_div_lt_one_div_of_lt
  · positivity
  · linarith

/-- C1 amended: the unrounded risk probability is the logistic sigmoid
of the linear score taken with the hard-coded base `2.718281828` (a
literal approximation of e) rather than the exact exponential base. -/
theorem risk_prob_literal_base_sigmoid (f : RiskFeatures)
    (hf : f.Valid) :
    (predict_risk f).risk_probability = round4 (risk_prob f) ∧
    risk_prob f =
      1 / (1 + (2.718281828 : ℝ) ^
        (-(1.5 * dti f + payment_penalty f + credit_util_penalty f +
          age_bonus f))) :=
  ⟨rfl, rfl⟩

/-- C1 witness: the amended formula at the sample input. -/
theorem risk_prob_literal_base_sigmoid_witness :
    sampleFeatures.Valid ∧
    ((predict_risk sampleFeatures).risk_probability =
        round4 (risk_prob sampleFeatures) ∧
      risk_prob sampleFeatures =
        1 / (1 + (2.718281828 : ℝ) ^
          (-(1.5 * dti sampleFeatures + payment_penalty sampleFeatures +
            credit_util_penalty sampleFeatures + age_bonus sampleFeatures)))) :=
  ⟨sampleFeatures_valid,
    risk_prob_literal_base_sigmoid sampleFeatures sampleFeatures_valid⟩

end Backend
